import Mathlib

/-!
Shallow embedding of the agentic-ops-hub repository: the browser front end's
API client layer, live-stream components, approval workflow, agent dock, and
the graph-database schema/seed bootstrap scripts.  Definitions are translated
from the TypeScript / Cypher sources; theorems settle the specification's
claims about them.
-/

namespace AgenticOpsHub

/-- A JSON value as delivered by the backend and handled by the front end
(`number` is modelled as an integer; no claim involves fractional values). -/
inductive Json where
  | null : Json
  | bool (b : Bool) : Json
  | num (n : Int) : Json
  | str (s : String) : Json
  | arr (xs : List Json) : Json
  | obj (fs : List (String × Json)) : Json

mutual

/-- Structural (JS strict-style) equality test on JSON values. -/
def Json.beq : Json → Json → Bool
  | .null, .null => true
  | .bool a, .bool b => a == b
  | .num a, .num b => a == b
  | .str a, .str b => a == b
  | .arr xs, .arr ys => Json.beqList xs ys
  | .obj fs, .obj gs => Json.beqFields fs gs
  | _, _ => false

/-- Element-wise equality test on JSON arrays. -/
def Json.beqList : List Json → List Json → Bool
  | [], [] => true
  | x :: xs, y :: ys => Json.beq x y && Json.beqList xs ys
  | _, _ => false

/-- Field-wise equality test on JSON object field lists. -/
def Json.beqFields : List (String × Json) → List (String × Json) → Bool
  | [], [] => true
  | (k, v) :: fs, (k2, v2) :: gs => k == k2 && Json.beq v v2 && Json.beqFields fs gs
  | _, _ => false

end

instance : BEq Json := ⟨Json.beq⟩

/-- Property lookup on a JSON object's field list (JS `o.k`). -/
def jsonLookup (fs : List (String × Json)) (k : String) : Option Json :=
  (fs.find? (fun p => p.1 == k)).map (·.2)

/-- JS truthiness on a JSON value: `null`, `false`, `0` and `""` are falsy. -/
def jsFalsy (v : Json) : Bool :=
  match v with
  | .null => true
  | .bool b => !b
  | .num n => n == 0
  | .str s => s == ""
  | .arr _ => false
  | .obj _ => false

/-- JS `a || b` on strings (the empty string is falsy). -/
def jsOr (a b : String) : String := if a = "" then b else a

/-! ## Backend API client layer

Two parallel client modules exist in the source:
`web/src/lib/api.ts` (`getJSON`/`postJSON` over a fixed `API_BASE` constant)
and `web/src/api/index.ts` (`get`/`post` over an env-resolved `API_BASE`).
An HTTP response is modelled by its status, status text, raw body text and
JSON-decoded body; `fetch` itself cannot fail in these claims' scope. -/

/-- An HTTP response as observed through `fetch`. -/
structure HttpResp where
  status : Nat
  statusText : String
  bodyText : String
  body : Json

/-- `Response.ok`: the status is in the 2xx range (200–299). -/
def respOk (r : HttpResp) : Bool := 200 ≤ r.status && r.status ≤ 299

/-- `web/src/lib/api.ts` `getJSON`: throw `` `${res.status} ${res.statusText}` ``
on non-2xx, otherwise return the decoded JSON body. -/
def getJSON (r : HttpResp) : Except String Json :=
  if respOk r then .ok r.body
  else .error (toString r.status ++ " " ++ r.statusText)

/-- `web/src/lib/api.ts` `postJSON`: same status check as `getJSON`. -/
def postJSON (r : HttpResp) : Except String Json :=
  if respOk r then .ok r.body
  else .error (toString r.status ++ " " ++ r.statusText)

/-- `web/src/api/index.ts` `get`: throw `` `${res.status} ${res.statusText}` ``
on non-2xx, otherwise return the decoded JSON body. -/
def apiIndexGet (r : HttpResp) : Except String Json :=
  if respOk r then .ok r.body
  else .error (toString r.status ++ " " ++ r.statusText)

/-- `web/src/api/index.ts` `post`: on non-2xx the thrown message additionally
carries the raw response text: `` `${res.status} ${res.statusText}: ${text}` ``. -/
def apiIndexPost (r : HttpResp) : Except String Json :=
  if respOk r then .ok r.body
  else .error (toString r.status ++ " " ++ r.statusText ++ ": " ++ r.bodyText)

/-- `n` occurs as a contiguous substring of `h`. -/
def strContains (h n : String) : Prop := List.IsInfix n.toList h.toList

/-! ## API base address resolution

Each module resolves its own base address.  Ambient configuration is a pair
of optional strings: the global runtime override `window.__API_BASE__` and
the build-time environment value `VITE_API_BASE` (`none` = absent). -/

/-- JS truthiness filter on an optional string: absent and `""` are falsy. -/
def jsTruthy (a : Option String) : Option String :=
  match a with
  | some s => if s = "" then none else some s
  | none => none

/-- `web/src/lib/api.ts`: `export const API_BASE = "http://localhost:8000"` —
a fixed constant, reading neither the runtime override nor the environment. -/
def libApiBase : String := "http://localhost:8000"

/-- JS `s.replace(/\/$/, "")`: drop at most one trailing slash. -/
def stripTrailingSlash (s : String) : String :=
  if s.toList.getLast? == some (Char.ofNat 47) then .mk s.toList.dropLast else s

/-- `web/src/api/index.ts`:
`API_BASE = import.meta.env.VITE_API_BASE?.replace(/\/$/, "") || "http://localhost:8000"`.
The runtime override is not consulted by this module; the parameter records
the ambient configuration it ignores. -/
def apiIndexBase (_runtime envVar : Option String) : String :=
  match envVar with
  | some s => jsOr (stripTrailingSlash s) "http://localhost:8000"
  | none => "http://localhost:8000"

/-- `web/src/components/ProposedActions.tsx`:
`API = window.__API_BASE__ || import.meta.env.VITE_API_BASE || "http://localhost:8000"`. -/
def proposedActionsApiBase (runtime envVar : Option String) : String :=
  match jsTruthy runtime with
  | some s => s
  | none =>
    match jsTruthy envVar with
    | some s => s
    | none => "http://localhost:8000"

/-- `web/src/components/AgentActionsAudit.tsx`: the same three-way chain as
`ProposedActions.tsx`. -/
def auditApiBase (runtime envVar : Option String) : String :=
  match jsTruthy runtime with
  | some s => s
  | none =>
    match jsTruthy envVar with
    | some s => s
    | none => "http://localhost:8000"

/-- Modelled from the spec: "The API base address is resolved, in priority
order, from: a global runtime override, an environment-supplied build-time
value, falling back to a fixed local default host/port." -/
def specApiBase (runtime envVar : Option String) : String :=
  match jsTruthy runtime with
  | some s => s
  | none =>
    match jsTruthy envVar with
    | some s => s
    | none => "http://localhost:8000"

/-! ## Live event stream components

Three widgets (`StreamTicker.tsx`, `EventTicker.tsx`, `NotificationCenter`)
each prepend every incoming WebSocket message to a bounded list:
`[entry, ...prev].slice(0, n)` with `n` = 50 / 12 / 5.  An incoming message
is its raw text together with its JSON parse outcome (`none` = parse throws). -/

mutual

/-- JS string coercion `String(v)` as used by template literals:
primitives print themselves, objects print `[object Object]`, arrays join
their coerced elements with commas. -/
def jsStringOf : Json → String
  | .null => "null"
  | .bool b => if b then "true" else "false"
  | .num n => toString n
  | .str s => s
  | .arr xs => String.intercalate "," (jsStringList xs)
  | .obj _ => "[object Object]"

/-- JS array-to-string coercion of the elements (`null` prints empty). -/
def jsStringList : List Json → List String
  | [] => []
  | .null :: xs => "" :: jsStringList xs
  | x :: xs => jsStringOf x :: jsStringList xs

end

/-- JS template-literal interpolation of a possibly-absent value. -/
def jsTemplate (v : Option Json) : String :=
  match v with
  | none => "undefined"
  | some j => jsStringOf j

/-- Field access `j.k` on an arbitrary JSON value: only objects have fields. -/
def jsonField (j : Json) (k : String) : Option Json :=
  match j with
  | .obj fs => jsonLookup fs k
  | _ => none

/-- `StreamTicker.tsx` message handler's entry: the parsed JSON event, or
`{raw: <text>}` when `JSON.parse` throws. -/
def streamTickerEntry (parsed : Option Json) (raw : String) : Json :=
  match parsed with
  | some j => j
  | none => .obj [("raw", .str raw)]

/-- `StreamTicker.tsx`: `setEvents(prev => [data, ...prev].slice(0, 50))`. -/
def streamTickerStep (prev : List Json) (msg : Option Json × String) : List Json :=
  (streamTickerEntry msg.1 msg.2 :: prev).take 50

/-- The StreamTicker state after a sequence of incoming messages. -/
def streamTickerRun (msgs : List (Option Json × String)) : List Json :=
  msgs.foldl streamTickerStep []

/-- `EventTicker.tsx` message handler's entry: on a successful parse the
summary line `` `${asObj.topic} @ ${asObj.ts}` `` (a parsed `null` makes the
property access throw, falling back to the raw text in the catch), otherwise
the raw message text. -/
def eventTickerEntry (parsed : Option Json) (raw : String) : String :=
  match parsed with
  | some .null => raw
  | some j => jsTemplate (jsonField j "topic") ++ " @ " ++ jsTemplate (jsonField j "ts")
  | none => raw

/-- `EventTicker.tsx`: `setMessages(m => [entry, ...m].slice(0, 12))`. -/
def eventTickerStep (prev : List String) (msg : Option Json × String) : List String :=
  (eventTickerEntry msg.1 msg.2 :: prev).take 12

/-- The EventTicker state after a sequence of incoming messages. -/
def eventTickerRun (msgs : List (Option Json × String)) : List String :=
  msgs.foldl eventTickerStep []

/-- `NotificationCenter`: `setItems(prev => [ev.data, ...prev].slice(0, 5))` —
the raw message text, unparsed. -/
def notificationStep (prev : List String) (raw : String) : List String :=
  (raw :: prev).take 5

/-- The NotificationCenter state after a sequence of incoming messages. -/
def notificationRun (msgs : List String) : List String :=
  msgs.foldl notificationStep []

/-! ## Proposal list and audit log: response shape, load and approval state

`ProposedActions.tsx` and `AgentActionsAudit.tsx` both extract their rows by
`(data?.items) ?? (Array.isArray(data) ? data : [])` and on a failed load set
the error text and clear the rows. -/

/-- JS `data?.items` followed by `??`: yields the `items` field unless the
value is absent or `null`; non-objects (arrays included) have no `items`. -/
def jsGetItems (data : Json) : Option Json :=
  match data with
  | .obj fs =>
    match jsonLookup fs "items" with
    | some .null => none
    | some v => some v
    | none => none
  | _ => none

/-- `ProposedActions.tsx` row extraction:
`(data?.items as AgentAction[]) ?? (Array.isArray(data) ? data : [])`. -/
def proposedRows (data : Json) : Json :=
  match jsGetItems data with
  | some v => v
  | none => match data with
    | .arr xs => .arr xs
    | _ => .arr []

/-- `AgentActionsAudit.tsx` row extraction: the same dual-shape expression. -/
def auditRows (data : Json) : Json :=
  match jsGetItems data with
  | some v => v
  | none => match data with
    | .arr xs => .arr xs
    | _ => .arr []

/-- UI state of `ProposedActions.tsx`: displayed rows, the busy row id, and
the error banner text. -/
structure ProposedActionsState where
  rows : Json
  busyId : Option String
  err : String

/-- `ProposedActions.load`: on success clear the error and set the extracted
rows; in the catch set `err` to `e.message || "Failed to load proposed
actions"` and `setRows([])`. -/
def proposedLoad (st : ProposedActionsState) (result : Except String Json) :
    ProposedActionsState :=
  match result with
  | .ok data => { st with err := "", rows := proposedRows data }
  | .error e =>
    { st with err := jsOr e "Failed to load proposed actions", rows := .arr [] }

/-- `ProposedActions.approve` after entity resolution: on a failed execute
request the catch sets only the error text (`e.message || "Approval
failed"`) and the finally clears the busy id — the rows are untouched; on
success the pending list is reloaded. -/
def proposedApprove (st : ProposedActionsState) (actionId : String)
    (execResult : Except String Unit) (reload : Except String Json) :
    ProposedActionsState :=
  match execResult with
  | .ok _ =>
    let st1 := proposedLoad { st with busyId := some actionId, err := "" } reload
    { st1 with busyId := none }
  | .error e =>
    { st with busyId := none, err := jsOr e "Approval failed" }

/-- UI state of `AgentActionsAudit.tsx`: displayed rows, busy flag, error. -/
structure AuditState where
  rows : Json
  busy : Bool
  err : String

/-- `AgentActionsAudit.load`: on success clear the error and set the
extracted rows; in the catch set `err` to `e.message || "Failed to load
agent actions"` and `setRows([])`; either way the finally clears the busy
flag. -/
def auditLoad (st : AuditState) (result : Except String Json) : AuditState :=
  match result with
  | .ok data => { st with err := "", rows := auditRows data, busy := false }
  | .error e =>
    { st with
      err := jsOr e "Failed to load agent actions"
      rows := .arr []
      busy := false }

/-! ## Approval entity-type resolution (`ProposedActions.tsx`) -/

/-- The fixed priority list of candidate labels iterated by
`resolveEntityTypeBySearch`. -/
def priorityLabels : List String :=
  ["Service", "Database", "API", "Server", "Topic",
   "Machine", "Line", "Plant", "Sensor", "Team"]

/-- `const results = Array.isArray(res?.results) ? res.results : []`. -/
def resultsOf (res : Json) : List Json :=
  match res with
  | .obj fs =>
    match jsonLookup fs "results" with
    | some (.arr rs) => rs
    | _ => []
  | _ => []

/-- One strict-equality probe of the find callback:
`(r?.props || {})?.<key> === eid` — true only when the hit's `props` is an
object whose `key` field is exactly the string `eid`. -/
def propsFieldIs (r : Json) (key eid : String) : Bool :=
  match r with
  | .obj fs =>
    match jsonLookup fs "props" with
    | some (.obj ps) => jsonLookup ps key == some (.str eid)
    | _ => false
  | _ => false

/-- The find callback of `resolveEntityTypeBySearch`:
`p?.id === eid || p?.name === eid || p?.title === eid`. -/
def hitMatches (eid : String) (r : Json) : Bool :=
  propsFieldIs r "id" eid || propsFieldIs r "name" eid || propsFieldIs r "title" eid

/-- `const labels: string[] = hit?.labels || []`. -/
def hitLabels (r : Json) : List Json :=
  match r with
  | .obj fs =>
    match jsonLookup fs "labels" with
    | some (.arr ls) => ls
    | _ => []
  | _ => []

/-- `labels.includes(t)` with a string candidate `t`. -/
def labelsInclude (ls : List Json) (t : String) : Bool :=
  ls.contains (.str t)

/-- The label answered for a chosen hit: the first priority-list label among
the hit's labels (the `for`-loop over the fixed candidate list), falling
back to `labels[0] ?? null`. -/
def priorityOf (hit : Json) : Option Json :=
  match priorityLabels.find? (fun t => labelsInclude (hitLabels hit) t) with
  | some t => some (.str t)
  | none =>
    match hitLabels hit with
    | [] => none
    | l :: _ => if l == .null then none else some l

/-- `resolveEntityTypeBySearch(eid)`: a failed or unparseable search request
is caught and yields `null`; an empty result list yields `null`; otherwise
the hit is the first result whose `props` `id`/`name`/`title` strictly
equals `eid`, falling back to the first result, and the answer is that hit's
`priorityOf` label. -/
def resolveEntityTypeBySearch (eid : String) (searchOutcome : Except String Json) :
    Option Json :=
  match searchOutcome with
  | .error _ => none
  | .ok res =>
    match resultsOf res with
    | [] => none
    | r0 :: _ => priorityOf (((resultsOf res).find? (hitMatches eid)).getD r0)

/-- `ProposedActions.approve`'s target type:
`(await resolveEntityTypeBySearch(row.entity_id)) || "Service"`. -/
def approveEntityType (eid : String) (searchOutcome : Except String Json) : Json :=
  match resolveEntityTypeBySearch eid searchOutcome with
  | none => .str "Service"
  | some v => if jsFalsy v then .str "Service" else v

/-! ## Conversational agent dock (`AgentDock.tsx`) -/

/-- The outcome of the dock's `fetch` of `POST /agent/query`: either the
promise rejects (network failure), or a response arrives whose `r.json()`
either parses (`.ok`) or throws (`.error`).  The carried strings are the
textual descriptions `String(err)` of the respective exceptions. -/
inductive FetchOutcome where
  | netError (e : String)
  | response (status : Nat) (statusText : String) (body : Except String Json)

/-- The error reply built in `AgentDock.ask`'s catch:
`{reply: String(err), confidence: 0.0, reasoning_summary: "Client error"}`. -/
def clientErrorResp (e : String) : Json :=
  .obj [("reply", .str e), ("confidence", .num 0),
        ("reasoning_summary", .str "Client error")]

/-- The try block of `AgentDock.ask`: `fetch` then `r.json()` — the response
status is never consulted. -/
def askTry (o : FetchOutcome) : Except String Json :=
  match o with
  | .netError e => .error e
  | .response _ _ (.error e) => .error e
  | .response _ _ (.ok j) => .ok j

/-- `AgentDock.ask`'s rendered response state: the parsed body, or the
client-error reply when the try block threw.  Totality of this function is
the embedding of "the handler never throws past the component". -/
def askResp (o : FetchOutcome) : Json :=
  match askTry o with
  | .ok j => j
  | .error e => clientErrorResp e

/-! ## Graph schema definition (constraint and index DDL) -/

/-- One `CREATE CONSTRAINT <name> IF NOT EXISTS FOR (n:<label>)
REQUIRE n.<property> IS UNIQUE` statement. -/
structure ConstraintDecl where
  name : String
  label : String
  property : String
  ifNotExists : Bool
deriving DecidableEq

/-- One `CREATE FULLTEXT INDEX <name> IF NOT EXISTS FOR (n:l1|…|lk)
ON EACH [n.p1, …]` statement. -/
structure FulltextIndexDecl where
  name : String
  labels : List String
  properties : List String
  ifNotExists : Bool
deriving DecidableEq

/-- The uniqueness-constraint DDL statements of the schema script, in order. -/
def schemaConstraints : List ConstraintDecl :=
  [⟨"site_id", "Site", "id", true⟩,
   ⟨"plant_id", "Plant", "id", true⟩,
   ⟨"line_id", "Line", "id", true⟩,
   ⟨"machine_id", "Machine", "id", true⟩,
   ⟨"sensor_id", "Sensor", "id", true⟩,
   ⟨"service_id", "Service", "id", true⟩,
   ⟨"database_id", "Database", "id", true⟩,
   ⟨"team_id", "Team", "id", true⟩,
   ⟨"incident_id", "Incident", "id", true⟩,
   ⟨"alert_id", "Alert", "id", true⟩,
   ⟨"ticket_id", "Ticket", "id", true⟩,
   ⟨"runbook_id", "Runbook", "id", true⟩,
   ⟨"action_id", "AgentAction", "id", true⟩,
   ⟨"api_id", "API", "id", true⟩,
   ⟨"topic_id", "Topic", "id", true⟩,
   ⟨"server_id", "Server", "id", true⟩,
   ⟨"netdev_id", "NetworkDevice", "id", true⟩,
   ⟨"user_id", "User", "id", true⟩,
   ⟨"alerttype_id", "AlertType", "id", true⟩]

/-- The full-text index DDL statements of the schema script. -/
def schemaFulltextIndexes : List FulltextIndexDecl :=
  [⟨"entity_text",
    ["Service", "Machine", "Line", "Plant", "Database", "Sensor",
     "API", "Server", "Topic", "Incident", "Alert", "Team"],
    ["id", "name", "title"], true⟩]

/-- The node labels of the data model (spec §3.1). -/
def dataModelLabels : List String :=
  ["Site", "Plant", "Line", "Machine", "Sensor",
   "Service", "Database", "API", "Server", "Topic",
   "Team", "User", "Incident", "Alert", "Ticket",
   "Runbook", "AgentAction", "AlertType", "NetworkDevice"]

/-- The schema catalog of the graph database: which constraints and indexes
exist, identified by name. -/
structure SchemaState where
  constraints : List ConstraintDecl
  indexes : List FulltextIndexDecl
deriving DecidableEq

/-- Apply one constraint DDL statement: with `IF NOT EXISTS`, a no-op when a
constraint of that name is already present. -/
def applyConstraint (st : SchemaState) (c : ConstraintDecl) : SchemaState :=
  if c.ifNotExists && st.constraints.any (fun d => d.name == c.name) then st
  else { st with constraints := st.constraints ++ [c] }

/-- Apply one full-text index DDL statement: with `IF NOT EXISTS`, a no-op
when an index of that name is already present. -/
def applyFulltextIndex (st : SchemaState) (i : FulltextIndexDecl) : SchemaState :=
  if i.ifNotExists && st.indexes.any (fun d => d.name == i.name) then st
  else { st with indexes := st.indexes ++ [i] }

/-- Run the whole schema script against a catalog. -/
def applySchema (st : SchemaState) : SchemaState :=
  schemaFulltextIndexes.foldl applyFulltextIndex
    (schemaConstraints.foldl applyConstraint st)

/-! ## Graph seed/demo data loader

The seed script is a sequence of Cypher `MERGE` statements: node merges with
`ON CREATE SET` / `ON MATCH SET` branches, bare node merges used to bind
variables, and relationship merges between bound variables.  `datetime()` is
modelled by the run's timestamp. -/

/-- A property value stored in the graph. -/
inductive Val where
  | str (s : String)
  | num (n : Int)
  | time (t : Nat)
deriving DecidableEq

/-- A node's or relationship's property map. -/
abbrev Props := List (String × Val)

/-- Read a property. -/
def getProp (ps : Props) (k : String) : Option Val :=
  match ps with
  | [] => none
  | (k1, v) :: rest => if k1 == k then some v else getProp rest k

/-- Write one property, replacing an existing entry of the same key. -/
def setProp (ps : Props) (k : String) (v : Val) : Props :=
  match ps with
  | [] => [(k, v)]
  | (k1, v1) :: rest =>
    if k1 = k then (k, v) :: rest else (k1, v1) :: setProp rest k v

/-- Apply a list of `SET` updates in order. -/
def setProps (ps us : Props) : Props :=
  us.foldl (fun a kv => setProp a kv.1 kv.2) ps

/-- A value in a `SET` clause: a literal, or `datetime()`. -/
inductive PVal where
  | lit (v : Val)
  | now
deriving DecidableEq

/-- A `SET` clause's property list. -/
abbrev PProps := List (String × PVal)

/-- Evaluate a `SET` value at the run's timestamp. -/
def evalPVal (t : Nat) : PVal → Val
  | .lit v => v
  | .now => .time t

/-- A graph node: one label and a property map. -/
structure GNode where
  label : String
  props : Props
deriving DecidableEq

/-- A directed relationship; endpoints are identified by (label, id) — every
merged node pattern in the script carries a unique string `id`. -/
structure GRel where
  relType : String
  src : String × String
  dst : String × String
  props : Props
deriving DecidableEq

/-- The graph's state: node list and relationship list, in creation order. -/
structure Graph where
  nodes : List GNode
  rels : List GRel
deriving DecidableEq

/-- One statement of the seed script. -/
inductive SeedStmt where
  | mergeNode (var : String) (label : String) (pattern : Props)
      (onCreate : PProps) (onMatch : PProps)
  | mergeRel (srcVar : String) (relType : String) (relProps : Props)
      (dstVar : String)
deriving DecidableEq

/-- Execution state of the script: the graph plus the Cypher variable
bindings accumulated so far (variable ↦ (label, id) of the bound node). -/
structure SeedState where
  g : Graph
  env : List (String × (String × String))

/-- `MERGE` pattern matching for a node: same label, and every pattern
property present with the same value. -/
def nodeMatches (label : String) (pat : Props) (n : GNode) : Bool :=
  n.label == label && pat.all (fun kv => getProp n.props kv.1 == some kv.2)

/-- The string `id` of a property map (every merged node pattern has one). -/
def idOfProps (ps : Props) : String :=
  match getProp ps "id" with
  | some (.str s) => s
  | _ => ""

/-- Bind a variable in the environment. -/
def envSet (env : List (String × (String × String))) (v : String)
    (key : String × String) : List (String × (String × String)) :=
  (v, key) :: env

/-- Look a variable up in the environment. -/
def envGet (env : List (String × (String × String))) (v : String) :
    Option (String × String) :=
  (env.find? (fun p => p.1 == v)).map (·.2)

/-- `MERGE` pattern matching for a relationship: same type, same endpoints,
and every pattern property present with the same value. -/
def relMatches (ty : String) (a b : String × String) (pat : Props) (r : GRel) : Bool :=
  r.relType == ty && r.src == a && r.dst == b &&
    pat.all (fun kv => getProp r.props kv.1 == some kv.2)

/-- Execute one seed statement at timestamp `t`.  A node `MERGE` either finds
the matching node and applies the `ON MATCH SET` branch, or creates the node
from the pattern plus the `ON CREATE SET` branch; either way the variable is
bound.  A relationship `MERGE` between bound endpoints creates the edge only
when no matching edge exists. -/
def runStmt (t : Nat) (st : SeedState) : SeedStmt → SeedState
  | .mergeNode v label pat onC onM =>
    match st.g.nodes.find? (nodeMatches label pat) with
    | some n =>
      let upd := onM.map (fun kv => (kv.1, evalPVal t kv.2))
      let nodes := st.g.nodes.map (fun m =>
        if nodeMatches label pat m then { m with props := setProps m.props upd } else m)
      { g := { st.g with nodes := nodes },
        env := envSet st.env v (label, idOfProps n.props) }
    | none =>
      let props0 := setProps pat (onC.map (fun kv => (kv.1, evalPVal t kv.2)))
      { g := { st.g with nodes := st.g.nodes ++ [⟨label, props0⟩] },
        env := envSet st.env v (label, idOfProps props0) }
  | .mergeRel sv ty rprops dv =>
    match envGet st.env sv, envGet st.env dv with
    | some a, some b =>
      if st.g.rels.any (relMatches ty a b rprops) then st
      else { st with g := { st.g with rels := st.g.rels ++ [⟨ty, a, b, rprops⟩] } }
    | _, _ => st

/-- Shorthand for a string-`id` node pattern. -/
def idPat (s : String) : Props := [("id", .str s)]

/-- Shorthand for the universal `ON MATCH SET x.updated_at = datetime()`. -/
def touchUpdated : PProps := [("updated_at", .now)]

set_option maxHeartbeats 2000000 in
/-- The seed script's statements, in source order. -/
def seedStmts : List SeedStmt :=
  [ -- Physical / logical topology
   .mergeNode "site" "Site" (idPat "Site-1")
     [("name", .lit (.str "Factory Campus")), ("created_at", .now)] touchUpdated,
   .mergeNode "plant" "Plant" (idPat "Plant-A")
     [("name", .lit (.str "Plant A")), ("created_at", .now)] touchUpdated,
   .mergeNode "line" "Line" (idPat "Line-3")
     [("name", .lit (.str "Assembly Line 3")), ("created_at", .now)] touchUpdated,
   .mergeNode "m1" "Machine" (idPat "M-42")
     [("name", .lit (.str "Cutter M-42")), ("criticality", .lit (.str "high")),
      ("created_at", .now)] touchUpdated,
   .mergeNode "m2" "Machine" (idPat "P-7")
     [("name", .lit (.str "Pump P-7")), ("criticality", .lit (.str "high")),
      ("created_at", .now)] touchUpdated,
   .mergeNode "s22" "Sensor" (idPat "S-22")
     [("name", .lit (.str "Vibration S-22")), ("created_at", .now)] touchUpdated,
   -- App / infra
   .mergeNode "svc" "Service" (idPat "order-service")
     [("name", .lit (.str "Order Service")), ("tier", .lit (.num 2)),
      ("created_at", .now)] touchUpdated,
   .mergeNode "db" "Database" (idPat "orders-db")
     [("name", .lit (.str "Orders DB")), ("engine", .lit (.str "postgres")),
      ("created_at", .now)] touchUpdated,
   .mergeNode "api" "API" (idPat "payments-api")
     [("name", .lit (.str "Payments API")), ("version", .lit (.str "v1")),
      ("created_at", .now)] touchUpdated,
   .mergeNode "srv" "Server" (idPat "srv-10")
     [("name", .lit (.str "App Server 10")), ("az", .lit (.str "us-east-1a")),
      ("created_at", .now)] touchUpdated,
   .mergeNode "topic1" "Topic" (idPat "orders-events")
     [("name", .lit (.str "orders-events")), ("partitions", .lit (.num 6)),
      ("created_at", .now)] touchUpdated,
   -- Orgs / users
   .mergeNode "team" "Team" (idPat "Team-A")
     [("name", .lit (.str "Core Platform")), ("created_at", .now)] touchUpdated,
   .mergeNode "user" "User" (idPat "sre-1")
     [("name", .lit (.str "On-Call SRE 1")), ("role", .lit (.str "SRE")),
      ("created_at", .now)] touchUpdated,
   -- Site -> Plant
   .mergeNode "site" "Site" (idPat "Site-1") [] [],
   .mergeNode "plant" "Plant" (idPat "Plant-A") [] [],
   .mergeRel "site" "HAS_PLANT" [] "plant",
   -- Plant -> Line
   .mergeNode "plant" "Plant" (idPat "Plant-A") [] [],
   .mergeNode "line" "Line" (idPat "Line-3") [] [],
   .mergeRel "plant" "HAS_LINE" [] "line",
   -- Line -> Machines
   .mergeNode "line" "Line" (idPat "Line-3") [] [],
   .mergeNode "m1" "Machine" (idPat "M-42") [] [],
   .mergeRel "line" "HAS_MACHINE" [] "m1",
   .mergeNode "line" "Line" (idPat "Line-3") [] [],
   .mergeNode "m2" "Machine" (idPat "P-7") [] [],
   .mergeRel "line" "HAS_MACHINE" [] "m2",
   -- Machine -> Sensor
   .mergeNode "m1" "Machine" (idPat "M-42") [] [],
   .mergeNode "s22" "Sensor" (idPat "S-22") [] [],
   .mergeRel "m1" "HAS_SENSOR" [] "s22",
   -- Service owns / runs on infra
   .mergeNode "svc" "Service" (idPat "order-service") [] [],
   .mergeNode "srv" "Server" (idPat "srv-10") [] [],
   .mergeRel "svc" "RUNS_ON" [("strength", .str "critical")] "srv",
   -- Service uses DB
   .mergeNode "db" "Database" (idPat "orders-db") [] [],
   .mergeRel "svc" "USES_DB"
     [("dependency_type", .str "READS_FROM"), ("strength", .str "critical")] "db",
   -- Service calls API
   .mergeNode "api" "API" (idPat "payments-api") [] [],
   .mergeRel "svc" "CALLS_API"
     [("dependency_type", .str "USES"), ("strength", .str "normal")] "api",
   -- Service publishes to topic
   .mergeNode "topic1" "Topic" (idPat "orders-events") [] [],
   .mergeRel "svc" "PUBLISHES_TO" [] "topic1",
   -- Another service consumes from the same topic
   .mergeNode "svc2" "Service" (idPat "billing-service")
     [("name", .lit (.str "Billing Service")), ("tier", .lit (.num 2)),
      ("created_at", .now)] touchUpdated,
   .mergeRel "svc2" "CONSUMES_FROM" [] "topic1",
   -- Services owned by team
   .mergeNode "team" "Team" (idPat "Team-A") [] [],
   .mergeRel "svc" "OWNED_BY" [] "team",
   .mergeRel "svc2" "OWNED_BY" [] "team",
   -- Incident affecting machine & service
   .mergeNode "inc" "Incident" (idPat "INC-1001")
     [("title", .lit (.str "Line-3 throughput drop")),
      ("severity", .lit (.str "high")), ("status", .lit (.str "open")),
      ("created_at", .now)] touchUpdated,
   .mergeNode "m2" "Machine" (idPat "P-7") [] [],
   .mergeNode "svc" "Service" (idPat "order-service") [] [],
   .mergeRel "inc" "AFFECTS" [] "m2",
   .mergeRel "inc" "AFFECTS" [] "svc",
   -- Alert about a sensor
   .mergeNode "al" "Alert" (idPat "ALERT-5001")
     [("name", .lit (.str "Vibration high S-22")),
      ("severity", .lit (.str "warning")), ("source", .lit (.str "monitoring")),
      ("created_at", .now)] touchUpdated,
   .mergeNode "s22" "Sensor" (idPat "S-22") [] [],
   .mergeRel "al" "ABOUT" [] "s22",
   -- Correlated alerts
   .mergeNode "al2" "Alert" (idPat "ALERT-5002")
     [("name", .lit (.str "Pump P-7 temp spike")),
      ("severity", .lit (.str "warning")), ("source", .lit (.str "monitoring")),
      ("created_at", .now)] touchUpdated,
   .mergeRel "al" "CORRELATED_WITH" [] "al2",
   -- Ticket tracks the incident
   .mergeNode "t" "Ticket" (idPat "TIC-9001")
     [("title", .lit (.str "Investigate Line-3")), ("status", .lit (.str "open")),
      ("created_at", .now)] touchUpdated,
   .mergeRel "t" "TRACKS" [] "inc",
   -- Runbook applies to a service and an alert type
   .mergeNode "rb" "Runbook" (idPat "RB-restore-pump")
     [("name", .lit (.str "Restore Pump P-7")), ("risk", .lit (.str "low")),
      ("created_at", .now)] touchUpdated,
   .mergeNode "svc" "Service" (idPat "order-service") [] [],
   .mergeRel "rb" "APPLIES_TO" [] "svc",
   .mergeNode "atype" "AlertType" (idPat "vibration-high")
     [("name", .lit (.str "Vibration High")), ("created_at", .now)] touchUpdated,
   .mergeRel "rb" "APPLIES_TO" [] "atype",
   -- Agent action executed by user and related to the incident
   .mergeNode "aa" "AgentAction" (idPat "ACT-7001")
     [("action", .lit (.str "run_playbook")), ("status", .lit (.str "completed")),
      ("created_at", .now)] touchUpdated,
   .mergeNode "u" "User" (idPat "sre-1") [] [],
   .mergeRel "aa" "EXECUTED_BY" [] "u",
   .mergeNode "inc" "Incident" (idPat "INC-1001") [] [],
   .mergeRel "aa" "RELATES_TO" [] "inc",
   .mergeNode "m2" "Machine" (idPat "P-7") [] [],
   .mergeRel "aa" "TARGETS" [] "m2",
   .mergeNode "al" "Alert" (idPat "ALERT-5001") [] [],
   .mergeRel "aa" "BASED_ON" [] "al",
   .mergeRel "aa" "BASED_ON" [] "rb",
   -- Approval trail
   .mergeNode "approver" "User" (idPat "lead-1")
     [("name", .lit (.str "SRE Lead")), ("role", .lit (.str "Lead")),
      ("created_at", .now)] touchUpdated,
   .mergeRel "aa" "APPROVED_BY" [] "approver",
   -- Sensor attached to machine
   .mergeNode "s22" "Sensor" (idPat "S-22") [] [],
   .mergeNode "m1" "Machine" (idPat "M-42") [] [],
   .mergeRel "s22" "ATTACHED_TO" [] "m1",
   -- Basic service + infra (second, simplified fragment)
   .mergeNode "s" "Service"
     [("id", .str "order-service"), ("name", .str "Order Service")] [] [],
   .mergeNode "db" "Database"
     [("id", .str "orders-db"), ("name", .str "Orders DB")] [] [],
   .mergeNode "api" "API"
     [("id", .str "payments-api"), ("name", .str "Payments API")] [] [],
   .mergeNode "srv" "Server"
     [("id", .str "srv-1"), ("name", .str "K8s Node 1")] [] [],
   .mergeNode "t" "Team"
     [("id", .str "team-checkout"), ("name", .str "Checkout Team")] [] [],
   -- Ownership + dependencies with strengths
   .mergeRel "s" "OWNED_BY" [] "t",
   .mergeRel "s" "USES_DB"
     [("dependency_type", .str "READS_FROM"), ("strength", .str "critical")] "db",
   .mergeRel "s" "CALLS_API"
     [("dependency_type", .str "USES"), ("strength", .str "normal")] "api",
   .mergeRel "s" "RUNS_ON" [("strength", .str "critical")] "srv",
   -- A topic
   .mergeNode "topic" "Topic"
     [("id", .str "orders.events"), ("name", .str "orders.events")] [] [],
   .mergeRel "s" "PUBLISHES_TO" [] "topic"]

/-- Run the whole seed script at timestamp `t` against a graph (a fresh
session: variable bindings start empty). -/
def runSeedOn (t : Nat) (g : Graph) : Graph :=
  (seedStmts.foldl (runStmt t) ⟨g, []⟩).g

/-- The empty graph. -/
def emptyGraph : Graph := ⟨[], []⟩

/-- The (label, id) pairs declared by the seed script's node merges. -/
def declaredNodeIds : List (String × String) :=
  [("Site", "Site-1"), ("Plant", "Plant-A"), ("Line", "Line-3"),
   ("Machine", "M-42"), ("Machine", "P-7"), ("Sensor", "S-22"),
   ("Service", "order-service"), ("Service", "billing-service"),
   ("Database", "orders-db"), ("API", "payments-api"),
   ("Server", "srv-10"), ("Server", "srv-1"),
   ("Topic", "orders-events"), ("Topic", "orders.events"),
   ("Team", "Team-A"), ("Team", "team-checkout"),
   ("User", "sre-1"), ("User", "lead-1"),
   ("Incident", "INC-1001"), ("Alert", "ALERT-5001"), ("Alert", "ALERT-5002"),
   ("Ticket", "TIC-9001"), ("Runbook", "RB-restore-pump"),
   ("AlertType", "vibration-high"), ("AgentAction", "ACT-7001")]

/-- The number of nodes in a graph with the given label and string `id`. -/
def countNodes (g : Graph) (label id : String) : Nat :=
  (g.nodes.filter (fun n =>
    n.label == label && getProp n.props "id" == some (.str id))).length

/-- A seed statement whose `ON MATCH SET` branch touches nothing but the
`updated_at` timestamp. -/
def onMatchOnlyUpdatedAt : SeedStmt → Bool
  | .mergeNode _ _ _ _ onM => onM.all (fun kv => kv.1 == "updated_at")
  | .mergeRel _ _ _ _ => true

/-- Erase every `updated_at` property from every node, keeping everything
else (labels, ids, descriptive fields, `created_at`, relationships). -/
def stripUpdated (g : Graph) : Graph :=
  { nodes := g.nodes.map (fun n =>
      { n with props := n.props.filter (fun p => p.1 ≠ "updated_at") }),
    rels := g.rels }

/-- A node with the given label and `id` exists and carries property `k = v`. -/
def hasNodeWith (g : Graph) (label id k : String) (v : Val) : Bool :=
  g.nodes.any (fun n =>
    n.label == label && getProp n.props "id" == some (.str id) &&
      getProp n.props k == some v)

/-- Directed reachability along a given list of relationship types. -/
def reachesVia (g : Graph) (a : String × String) :
    List String → String × String → Bool
  | [], b => a == b
  | ty :: tys, b =>
    g.rels.any (fun r => r.relType == ty && r.src == a && reachesVia g r.dst tys b)

/-! ### Retiming

The seed statements' `MERGE` patterns and `SET` literals carry no timestamp
values, so a seed run at one timestamp is the run at another timestamp with
the stored times renamed.  This lets the universally-quantified idempotency
and reachability claims reduce to two concrete runs. -/

/-- Rename the timestamps stored in a value. -/
def mapVal (f : Nat → Nat) : Val → Val
  | .str s => .str s
  | .num n => .num n
  | .time t => .time (f t)

/-- Rename the timestamps stored in a property map. -/
def mapProps (f : Nat → Nat) (ps : Props) : Props :=
  ps.map (fun p => (p.1, mapVal f p.2))

/-- Rename the timestamps stored in a node. -/
def mapNode (f : Nat → Nat) (n : GNode) : GNode :=
  { n with props := mapProps f n.props }

/-- Rename the timestamps stored in a relationship. -/
def mapRel (f : Nat → Nat) (r : GRel) : GRel :=
  { r with props := mapProps f r.props }

/-- Rename the timestamps stored in a graph. -/
def mapGraph (f : Nat → Nat) (g : Graph) : Graph :=
  ⟨g.nodes.map (mapNode f), g.rels.map (mapRel f)⟩

/-- Rename the timestamps stored in an execution state. -/
def mapState (f : Nat → Nat) (st : SeedState) : SeedState :=
  ⟨mapGraph f st.g, st.env⟩

/-- A value that is not a timestamp. -/
def valTimeFree : Val → Bool
  | .time _ => false
  | _ => true

/-- A property map without timestamp values. -/
def propsTimeFree (ps : Props) : Bool := ps.all (fun p => valTimeFree p.2)

/-- A `SET` value without literal timestamps (`datetime()` itself is fine). -/
def pvalTimeFree : PVal → Bool
  | .lit v => valTimeFree v
  | .now => true

/-- A `SET` clause without literal timestamps. -/
def ppropsTimeFree (ps : PProps) : Bool := ps.all (fun p => pvalTimeFree p.2)

/-- A statement whose pattern and `SET` literals carry no timestamps. -/
def stmtTimeFree : SeedStmt → Bool
  | .mergeNode _ _ pat onC onM =>
    propsTimeFree pat && ppropsTimeFree onC && ppropsTimeFree onM
  | .mergeRel _ _ rp _ => propsTimeFree rp

/-! ## Concrete inputs used by witnesses -/

/-- A 404 response. -/
def r404 : HttpResp := ⟨404, "Not Found", "missing", .null⟩

/-- A successful response. -/
def r200 : HttpResp := ⟨200, "OK", "ok", .obj [("ok", .bool true)]⟩

/-- Sixty sequential raw WebSocket messages. -/
def sixtyRaws : List String := (List.range 60).map toString

/-- Sixty sequential parsed WebSocket messages. -/
def sixtyMsgs : List (Option Json × String) :=
  (List.range 60).map (fun i => (some (.num i), toString i))

/-- A search hit whose props do not match the probed entity id. -/
def hitNoMatch : Json :=
  .obj [("props", .obj [("id", .str "other")]), ("labels", .arr [.str "Team"])]

/-- A search hit with an exact `id` match carrying the label `Machine`. -/
def hitMachine : Json :=
  .obj [("props", .obj [("id", .str "M-42")]),
        ("labels", .arr [.str "Widget", .str "Machine"])]

/-- A search response with several results, the second an exact match. -/
def searchResM42 : Json := .obj [("results", .arr [hitNoMatch, hitMachine])]

/-- A search response with no results. -/
def emptySearchRes : Json := .obj [("results", .arr [])]

/-- A backend error body a non-2xx `/agent/query` response might carry. -/
def backendErrorBody : Json :=
  .obj [("reply", .str "backend detail"), ("confidence", .num 1),
        ("reasoning_summary", .str "server")]

theorem mapVal_timeFree (f : Nat → Nat) {v : Val} (h : valTimeFree v = true) :
    mapVal f v = v := by
  cases v <;> simp [mapVal, valTimeFree] at *

theorem mapProps_timeFree (f : Nat → Nat) {ps : Props}
    (h : propsTimeFree ps = true) : mapProps f ps = ps := by
  induction ps with
  | nil => rfl
  | cons p rest ih =>
    simp only [propsTimeFree, List.all_cons, Bool.and_eq_true] at h
    simp only [mapProps, List.map_cons, List.cons.injEq]
    exact ⟨by rw [mapVal_timeFree f h.1], ih h.2⟩

theorem beq_mapVal (f : Nat → Nat) (v w : Val) (hw : valTimeFree w = true) :
    (mapVal f v == w) = (v == w) := by
  cases v <;> cases w <;> first | rfl | simp [valTimeFree] at hw

theorem mapProps_cons (f : Nat → Nat) (p : String × Val) (ps : Props) :
    mapProps f (p :: ps) = (p.1, mapVal f p.2) :: mapProps f ps := rfl

theorem setProps_cons (ps : Props) (u : String × Val) (us : Props) :
    setProps ps (u :: us) = setProps (setProp ps u.1 u.2) us := rfl

theorem getProp_mapProps (f : Nat → Nat) (ps : Props) (k : String) :
    getProp (mapProps f ps) k = (getProp ps k).map (mapVal f) := by
  induction ps with
  | nil => rfl
  | cons p rest ih =>
    obtain ⟨k1, v1⟩ := p
    rw [mapProps_cons]
    by_cases h : (k1 == k) = true
    · simp [getProp, h]
    · simp only [Bool.not_eq_true] at h
      simp [getProp, h, ih]

theorem getProp_mapProps_beq (f : Nat → Nat) (ps : Props) (k : String)
    (w : Val) (hw : valTimeFree w = true) :
    (getProp (mapProps f ps) k == some w) = (getProp ps k == some w) := by
  rw [getProp_mapProps]
  cases h : getProp ps k with
  | none => rfl
  | some v =>
    show (some (mapVal f v) == some w) = (some v == some w)
    show (mapVal f v == w) = (v == w)
    exact beq_mapVal f v w hw

theorem patMatch_mapProps (f : Nat → Nat) (ps : Props) (pat : Props)
    (hp : propsTimeFree pat = true) :
    (pat.all fun kv => getProp (mapProps f ps) kv.1 == some kv.2) =
      (pat.all fun kv => getProp ps kv.1 == some kv.2) := by
  induction pat with
  | nil => rfl
  | cons kv rest ih =>
    simp only [propsTimeFree, List.all_cons, Bool.and_eq_true] at hp
    simp only [List.all_cons]
    rw [getProp_mapProps_beq f ps kv.1 kv.2 hp.1, ih hp.2]

theorem nodeMatches_mapNode (f : Nat → Nat) (label : String) (pat : Props)
    (n : GNode) (hp : propsTimeFree pat = true) :
    nodeMatches label pat (mapNode f n) = nodeMatches label pat n := by
  simp only [nodeMatches, mapNode]
  rw [patMatch_mapProps f n.props pat hp]

theorem relMatches_mapRel (f : Nat → Nat) (ty : String) (a b : String × String)
    (pat : Props) (r : GRel) (hp : propsTimeFree pat = true) :
    relMatches ty a b pat (mapRel f r) = relMatches ty a b pat r := by
  simp only [relMatches, mapRel]
  rw [patMatch_mapProps f r.props pat hp]

theorem setProp_mapProps (f : Nat → Nat) (ps : Props) (k : String) (v : Val) :
    setProp (mapProps f ps) k (mapVal f v) = mapProps f (setProp ps k v) := by
  induction ps with
  | nil => rfl
  | cons p rest ih =>
    obtain ⟨k1, v1⟩ := p
    rw [mapProps_cons]
    simp only [setProp]
    by_cases h : k1 = k
    · simp [h, mapProps_cons]
    · simp only [h, if_false, mapProps_cons, List.cons.injEq, true_and, and_true]
      exact ih

theorem setProps_mapProps (f : Nat → Nat) (ps us : Props) :
    setProps (mapProps f ps) (mapProps f us) = mapProps f (setProps ps us) := by
  induction us generalizing ps with
  | nil => rfl
  | cons u rest ih =>
    rw [mapProps_cons, setProps_cons, setProps_cons, setProp_mapProps]
    exact ih (setProp ps u.1 u.2)

theorem evalPVal_mapVal (f : Nat → Nat) (t : Nat) (pv : PVal)
    (h : pvalTimeFree pv = true) :
    mapVal f (evalPVal t pv) = evalPVal (f t) pv := by
  cases pv with
  | lit v => exact mapVal_timeFree f (by simpa [pvalTimeFree] using h)
  | now => rfl

theorem evalPProps_mapProps (f : Nat → Nat) (t : Nat) (us : PProps)
    (h : ppropsTimeFree us = true) :
    (us.map fun kv => (kv.1, evalPVal (f t) kv.2)) =
      mapProps f (us.map fun kv => (kv.1, evalPVal t kv.2)) := by
  induction us with
  | nil => rfl
  | cons u rest ih =>
    simp only [ppropsTimeFree, List.all_cons, Bool.and_eq_true] at h
    simp only [mapProps, List.map_cons, List.cons.injEq] at *
    exact ⟨by rw [evalPVal_mapVal f t u.2 h.1], ih h.2⟩

theorem idOfProps_mapProps (f : Nat → Nat) (ps : Props) :
    idOfProps (mapProps f ps) = idOfProps ps := by
  simp only [idOfProps, getProp_mapProps]
  cases h : getProp ps "id" with
  | none => rfl
  | some v => cases v <;> rfl

theorem find?_map_nodeMatches (f : Nat → Nat) (label : String) (pat : Props)
    (hp : propsTimeFree pat = true) (l : List GNode) :
    (l.map (mapNode f)).find? (nodeMatches label pat) =
      (l.find? (nodeMatches label pat)).map (mapNode f) := by
  have hpred : (nodeMatches label pat ∘ mapNode f) = nodeMatches label pat := by
    funext n
    simp only [Function.comp]
    exact nodeMatches_mapNode f label pat n hp
  rw [List.find?_map, hpred]

theorem any_map_relMatches (f : Nat → Nat) (ty : String) (a b : String × String)
    (pat : Props) (hp : propsTimeFree pat = true) (l : List GRel) :
    (l.map (mapRel f)).any (relMatches ty a b pat) = l.any (relMatches ty a b pat) := by
  have hpred : (relMatches ty a b pat ∘ mapRel f) = relMatches ty a b pat := by
    funext r
    simp only [Function.comp]
    exact relMatches_mapRel f ty a b pat r hp
  rw [List.any_map, hpred]

theorem runStmt_mapState (f : Nat → Nat) (t : Nat) (st : SeedState) (s : SeedStmt)
    (hs : stmtTimeFree s = true) :
    runStmt (f t) (mapState f st) s = mapState f (runStmt t st s) := by
  cases s with
  | mergeNode v label pat onC onM =>
    simp only [stmtTimeFree, Bool.and_eq_true] at hs
    obtain ⟨⟨hpat, honC⟩, honM⟩ := hs
    simp only [runStmt, mapState, mapGraph]
    rw [find?_map_nodeMatches f label pat hpat st.g.nodes]
    cases h : st.g.nodes.find? (nodeMatches label pat) with
    | none =>
      simp only [Option.map_none']
      have hprops : setProps pat (onC.map fun kv => (kv.1, evalPVal (f t) kv.2)) =
          mapProps f (setProps pat (onC.map fun kv => (kv.1, evalPVal t kv.2))) := by
        rw [evalPProps_mapProps f t onC honC]
        conv_lhs => rw [← mapProps_timeFree f hpat]
        rw [setProps_mapProps]
      simp only [hprops, idOfProps_mapProps, List.map_append, List.map_cons,
        List.map_nil]
      rfl
    | some n =>
      simp only [Option.map_some']
      have hupd : (onM.map fun kv => (kv.1, evalPVal (f t) kv.2)) =
          mapProps f (onM.map fun kv => (kv.1, evalPVal t kv.2)) :=
        evalPProps_mapProps f t onM honM
      rw [hupd]
      have hnodes : (st.g.nodes.map (mapNode f)).map (fun m =>
            if nodeMatches label pat m then
              { m with props := (setProps m.props (mapProps f (onM.map fun kv => (kv.1, evalPVal t kv.2)))) }
            else m) =
          (st.g.nodes.map (fun m =>
            if nodeMatches label pat m then
              { m with props := (setProps m.props (onM.map fun kv => (kv.1, evalPVal t kv.2))) }
            else m)).map (mapNode f) := by
        rw [List.map_map, List.map_map]
        congr 1
        funext m
        simp only [Function.comp]
        rw [nodeMatches_mapNode f label pat m hpat]
        by_cases hm : nodeMatches label pat m = true
        · simp only [hm, if_true]
          show GNode.mk m.label
              (setProps (mapProps f m.props)
                (mapProps f (onM.map fun kv => (kv.1, evalPVal t kv.2)))) = _
          rw [setProps_mapProps]
          rfl
        · simp only [Bool.not_eq_true] at hm
          simp [hm]
      rw [hnodes]
      rw [show (mapNode f n).props = mapProps f n.props from rfl, idOfProps_mapProps]
  | mergeRel sv ty rprops dv =>
    simp only [stmtTimeFree] at hs
    simp only [runStmt, mapState, mapGraph]
    cases ha : envGet st.env sv with
    | none => cases hb : envGet st.env dv <;> rfl
    | some a =>
      cases hb : envGet st.env dv with
      | none => rfl
      | some b =>
        dsimp only
        rw [any_map_relMatches f ty a b rprops hs st.g.rels]
        by_cases hc : st.g.rels.any (relMatches ty a b rprops) = true
        · simp [hc]
        · simp only [Bool.not_eq_true] at hc
          simp only [hc, if_false]
          have : mapProps f rprops = rprops := mapProps_timeFree f hs
          simp [mapGraph, List.map_append, mapRel, this]

theorem foldl_runStmt_mapState (f : Nat → Nat) (t : Nat) (ss : List SeedStmt)
    (h : ss.all stmtTimeFree = true) (st : SeedState) :
    ss.foldl (runStmt (f t)) (mapState f st) = mapState f (ss.foldl (runStmt t) st) := by
  induction ss generalizing st with
  | nil => rfl
  | cons s rest ih =>
    simp only [List.all_cons, Bool.and_eq_true] at h
    simp only [List.foldl_cons]
    rw [runStmt_mapState f t st s h.1]
    exact ih h.2 (runStmt t st s)

set_option maxRecDepth 200000 in
theorem seedStmts_timeFree : seedStmts.all stmtTimeFree = true := by decide

theorem mapState_g (f : Nat → Nat) (st : SeedState) :
    (mapState f st).g = mapGraph f st.g := rfl

theorem runSeedOn_mapGraph (f : Nat → Nat) (t : Nat) (g : Graph) :
    runSeedOn (f t) (mapGraph f g) = mapGraph f (runSeedOn t g) := by
  show (seedStmts.foldl (runStmt (f t)) ⟨mapGraph f g, []⟩).g =
    mapGraph f (seedStmts.foldl (runStmt t) ⟨g, []⟩).g
  have h0 : (⟨mapGraph f g, []⟩ : SeedState) = mapState f ⟨g, []⟩ := rfl
  rw [h0, foldl_runStmt_mapState f t seedStmts seedStmts_timeFree ⟨g, []⟩,
    mapState_g f (seedStmts.foldl (runStmt t) ⟨g, []⟩)]

theorem countNodes_mapGraph (f : Nat → Nat) (g : Graph) (label id : String) :
    countNodes (mapGraph f g) label id = countNodes g label id := by
  have hpred : ((fun n : GNode =>
        n.label == label && getProp n.props "id" == some (Val.str id)) ∘ mapNode f) =
      (fun n : GNode => n.label == label && getProp n.props "id" == some (Val.str id)) := by
    funext n
    simp only [Function.comp]
    rw [show (mapNode f n).props = mapProps f n.props from rfl,
      show (mapNode f n).label = n.label from rfl,
      getProp_mapProps_beq f n.props "id" (Val.str id) rfl]
  simp only [countNodes, mapGraph]
  rw [List.filter_map, hpred, List.length_map]

theorem hasNodeWith_mapGraph (f : Nat → Nat) (g : Graph) (label id k : String)
    (v : Val) (hv : valTimeFree v = true) :
    hasNodeWith (mapGraph f g) label id k v = hasNodeWith g label id k v := by
  have hpred : ((fun n : GNode => n.label == label &&
        getProp n.props "id" == some (Val.str id) && getProp n.props k == some v) ∘
          mapNode f) =
      (fun n : GNode => n.label == label &&
        getProp n.props "id" == some (Val.str id) && getProp n.props k == some v) := by
    funext n
    simp only [Function.comp]
    rw [show (mapNode f n).props = mapProps f n.props from rfl,
      show (mapNode f n).label = n.label from rfl,
      getProp_mapProps_beq f n.props "id" (Val.str id) rfl,
      getProp_mapProps_beq f n.props k v hv]
  simp only [hasNodeWith, mapGraph]
  rw [List.any_map, hpred]

theorem reachesVia_mapGraph (f : Nat → Nat) (g : Graph) (a b : String × String)
    (tys : List String) : reachesVia (mapGraph f g) a tys b = reachesVia g a tys b := by
  induction tys generalizing a with
  | nil => rfl
  | cons ty rest ih =>
    show (mapGraph f g).rels.any _ = g.rels.any _
    rw [show (mapGraph f g).rels = g.rels.map (mapRel f) from rfl, List.any_map]
    have hpred : ((fun r : GRel => r.relType == ty && r.src == a &&
          reachesVia (mapGraph f g) r.dst rest b) ∘ mapRel f) =
        (fun r : GRel => r.relType == ty && r.src == a && reachesVia g r.dst rest b) := by
      funext r
      simp only [Function.comp]
      rw [show (mapRel f r).relType = r.relType from rfl,
        show (mapRel f r).src = r.src from rfl,
        show (mapRel f r).dst = r.dst from rfl, ih r.dst]
    rw [hpred]

set_option maxRecDepth 200000 in
theorem seedRun_nodeCounts :
    (declaredNodeIds.all fun li =>
      countNodes (runSeedOn 1 (runSeedOn 0 emptyGraph)) li.1 li.2 == 1) = true := by
  decide

set_option maxRecDepth 200000 in
theorem seedRun_strip :
    stripUpdated (runSeedOn 1 (runSeedOn 0 emptyGraph)) =
      stripUpdated (runSeedOn 0 emptyGraph) := by
  decide

set_option maxRecDepth 200000 in
theorem seedRun_m42_crit :
    hasNodeWith (runSeedOn 0 emptyGraph) "Machine" "M-42" "criticality"
      (.str "high") = true := by
  decide

set_option maxRecDepth 200000 in
theorem seedRun_m42_path :
    reachesVia (runSeedOn 0 emptyGraph) ("Site", "Site-1")
      ["HAS_PLANT", "HAS_LINE", "HAS_MACHINE"] ("Machine", "M-42") = true := by
  decide

theorem mapGraph_empty (f : Nat → Nat) : mapGraph f emptyGraph = emptyGraph := rfl

theorem runSeedOn_retime (t1 t2 : Nat) :
    runSeedOn t1 emptyGraph =
      mapGraph (fun n => if n = 0 then t1 else t2) (runSeedOn 0 emptyGraph) := by
  have h := runSeedOn_mapGraph (fun n => if n = 0 then t1 else t2) 0 emptyGraph
  rw [mapGraph_empty] at h
  simpa using h

theorem runSeedOn_retime2 (t1 t2 : Nat) :
    runSeedOn t2 (runSeedOn t1 emptyGraph) =
      mapGraph (fun n => if n = 0 then t1 else t2)
        (runSeedOn 1 (runSeedOn 0 emptyGraph)) := by
  have h := runSeedOn_mapGraph (fun n => if n = 0 then t1 else t2) 1
    (runSeedOn 0 emptyGraph)
  simp only [Nat.one_ne_zero, if_false] at h
  rw [← runSeedOn_retime t1 t2] at h
  exact h

theorem stripUpdated_mapGraph (f : Nat → Nat) (g : Graph) :
    stripUpdated (mapGraph f g) = mapGraph f (stripUpdated g) := by
  have hnodes : (g.nodes.map (mapNode f)).map (fun n =>
        { n with props := n.props.filter (fun p => p.1 ≠ "updated_at") }) =
      (g.nodes.map (fun n =>
        { n with props := n.props.filter (fun p => p.1 ≠ "updated_at") })).map
          (mapNode f) := by
    rw [List.map_map, List.map_map]
    congr 1
    funext n
    simp only [Function.comp]
    rw [show (mapNode f n).props = mapProps f n.props from rfl]
    show GNode.mk n.label ((mapProps f n.props).filter fun p => decide (p.1 ≠ "updated_at")) = _
    rw [show mapProps f n.props = n.props.map (fun p => (p.1, mapVal f p.2)) from rfl,
      List.filter_map]
    rfl
  simp only [stripUpdated, mapGraph]
  rw [hnodes]

/-! ## Generic helper lemmas for the claims -/

theorem toList_append (a b : String) : (a ++ b).toList = a.toList ++ b.toList := rfl

theorem strContains_left (p q : String) : strContains (p ++ q) p := by
  show List.IsInfix p.toList (p ++ q).toList
  rw [toList_append]
  exact ⟨[], q.toList, by simp⟩

theorem strContains_suffix (p q : String) : strContains (p ++ q) q := by
  show List.IsInfix q.toList (p ++ q).toList
  rw [toList_append]
  exact ⟨p.toList, [], by simp⟩

theorem strContains_extendR (x y s : String) (h : strContains x s) :
    strContains (x ++ y) s := by
  obtain ⟨p, q, hpq⟩ := h
  refine ⟨p, q ++ y.toList, ?_⟩
  rw [toList_append, ← hpq]
  simp

theorem take_append_take {α : Type} (n : Nat) (l l2 : List α) :
    (l ++ l2.take n).take n = (l ++ l2).take n := by
  rw [List.take_append_eq_append_take, List.take_append_eq_append_take,
    List.take_take, min_eq_left (Nat.sub_le n l.length)]

theorem foldl_push_take {α β : Type} (n : Nat) (g : α → β) (ms : List α)
    (acc : List β) (hacc : acc.length ≤ n) :
    ms.foldl (fun prev x => (g x :: prev).take n) acc =
      ((ms.map g).reverse ++ acc).take n := by
  induction ms generalizing acc with
  | nil => simp [List.take_of_length_le hacc]
  | cons m rest ih =>
    simp only [List.foldl_cons, List.map_cons, List.reverse_cons]
    rw [ih ((g m :: acc).take n)
      (by rw [List.length_take]; exact Nat.min_le_left _ _)]
    rw [take_append_take]
    simp [List.append_assoc]

/-! ## The claims -/

/-- C1: the approval flow's entity-type resolution: for every search
response containing a result whose `props` `id`/`name`/`title` exactly
equals the entity id, the selected hit is the first such result and the
answer is that hit's first priority-list label (falling back to its first
label); an empty result list resolves to `null` and the approval flow then
defaults the entity type to `"Service"`. -/
theorem approval_target_resolution (eid : String) (res : Json) :
    (resultsOf res = [] →
      resolveEntityTypeBySearch eid (.ok res) = none ∧
      approveEntityType eid (.ok res) = .str "Service") ∧
    (∀ r ∈ resultsOf res, hitMatches eid r = true →
      ∃ hit, (resultsOf res).find? (hitMatches eid) = some hit ∧
        hitMatches eid hit = true ∧
        resolveEntityTypeBySearch eid (.ok res) = priorityOf hit) := by
  constructor
  · intro h
    constructor
    · simp [resolveEntityTypeBySearch, h]
    · simp [approveEntityType, resolveEntityTypeBySearch, h]
  · intro r hr hm
    have hsome : ((resultsOf res).find? (hitMatches eid)).isSome := by
      rw [List.find?_isSome]
      exact ⟨r, hr, hm⟩
    obtain ⟨hit, hfind⟩ := Option.isSome_iff_exists.mp hsome
    refine ⟨hit, hfind, List.find?_some hfind, ?_⟩
    cases hres : resultsOf res with
    | nil => rw [hres] at hr; cases hr
    | cons r0 rest =>
      simp only [resolveEntityTypeBySearch, hres]
      rw [hres] at hfind
      rw [hfind]
      simp only [Option.getD_some]

/-- C1 witness: in a response with several results where the second has an
exact `id` match labelled `Machine`, the resolution selects it and answers
`"Machine"`; on an empty result list it resolves to `null` and the approval
flow defaults to `"Service"`. -/
theorem approval_target_resolution_witness :
    ((resultsOf searchResM42).find? (hitMatches "M-42") = some hitMachine ∧
      resolveEntityTypeBySearch "M-42" (.ok searchResM42) = priorityOf hitMachine) ∧
    resolveEntityTypeBySearch "M-42" (.ok searchResM42) = some (.str "Machine") ∧
    resolveEntityTypeBySearch "x" (.ok emptySearchRes) = none ∧
    approveEntityType "x" (.ok emptySearchRes) = .str "Service" := by
  obtain ⟨hit, hfind, hhit, hres⟩ := (approval_target_resolution "M-42" searchResM42).2
    hitMachine (List.mem_cons_of_mem _ (List.mem_cons_self _ _)) rfl
  have hfind0 : (resultsOf searchResM42).find? (hitMatches "M-42") =
      some hitMachine := rfl
  have heq : hit = hitMachine := Option.some.inj (hfind.symm.trans hfind0)
  rw [heq] at hres
  have hempty := (approval_target_resolution "x" emptySearchRes).1 rfl
  exact ⟨⟨hfind0, hres⟩, rfl, hempty.1, hempty.2⟩

/-- C2: through all four generic client operations, a non-2xx response
raises an error whose message carries the status code and status text, and
a 2xx response returns the decoded JSON body unchanged. -/
theorem client_status_propagation (r : HttpResp) :
    (respOk r = false →
      getJSON r = .error (toString r.status ++ " " ++ r.statusText) ∧
      postJSON r = .error (toString r.status ++ " " ++ r.statusText) ∧
      apiIndexGet r = .error (toString r.status ++ " " ++ r.statusText) ∧
      apiIndexPost r =
        .error (toString r.status ++ " " ++ r.statusText ++ ": " ++ r.bodyText) ∧
      strContains (toString r.status ++ " " ++ r.statusText) (toString r.status) ∧
      strContains (toString r.status ++ " " ++ r.statusText) r.statusText ∧
      strContains (toString r.status ++ " " ++ r.statusText ++ ": " ++ r.bodyText)
        (toString r.status) ∧
      strContains (toString r.status ++ " " ++ r.statusText ++ ": " ++ r.bodyText)
        r.statusText) ∧
    (respOk r = true →
      getJSON r = .ok r.body ∧ postJSON r = .ok r.body ∧
      apiIndexGet r = .ok r.body ∧ apiIndexPost r = .ok r.body) := by
  constructor
  · intro h
    refine ⟨by simp [getJSON, h], by simp [postJSON, h], by simp [apiIndexGet, h],
      by simp [apiIndexPost, h], ?_, ?_, ?_, ?_⟩
    · exact strContains_extendR _ _ _ (strContains_left (toString r.status) " ")
    · exact strContains_suffix (toString r.status ++ " ") r.statusText
    · exact strContains_extendR _ _ _ (strContains_extendR _ _ _
        (strContains_extendR _ _ _ (strContains_left (toString r.status) " ")))
    · exact strContains_extendR _ _ _ (strContains_extendR _ _ _
        (strContains_suffix (toString r.status ++ " ") r.statusText))
  · intro h
    exact ⟨by simp [getJSON, h], by simp [postJSON, h],
      by simp [apiIndexGet, h], by simp [apiIndexPost, h]⟩

/-- C2 witness: a GET returning 404 yields the error `"404 Not Found"`,
whose message contains `"404"`; a 200 GET returns the decoded body. -/
theorem client_status_propagation_witness :
    getJSON r404 = .error "404 Not Found" ∧
    strContains "404 Not Found" "404" ∧
    apiIndexPost r404 = .error "404 Not Found: missing" ∧
    getJSON r200 = .ok (.obj [("ok", .bool true)]) := by
  have h1 := (client_status_propagation r404).1 (by decide)
  have h2 := (client_status_propagation r200).2 (by decide)
  exact ⟨h1.1, h1.2.2.2.2.1, h1.2.2.2.1, h2.1⟩

set_option maxRecDepth 200000 in
/-- C3: re-running the seed loader at any pair of timestamps leaves exactly
one node per declared (label, id), every `ON MATCH` branch touches only
`updated_at`, and the second run changes nothing but `updated_at` values —
descriptive fields and `created_at` survive unchanged. -/
theorem seed_rerun_idempotent (t1 t2 : Nat) :
    (declaredNodeIds.all fun li =>
      countNodes (runSeedOn t2 (runSeedOn t1 emptyGraph)) li.1 li.2 == 1) = true ∧
    seedStmts.all onMatchOnlyUpdatedAt = true ∧
    stripUpdated (runSeedOn t2 (runSeedOn t1 emptyGraph)) =
      stripUpdated (runSeedOn t1 emptyGraph) := by
  refine ⟨?_, by decide, ?_⟩
  · rw [runSeedOn_retime2 t1 t2]
    have hfun : (fun li : String × String =>
        countNodes (mapGraph (fun n => if n = 0 then t1 else t2)
          (runSeedOn 1 (runSeedOn 0 emptyGraph))) li.1 li.2 == 1) =
        (fun li : String × String =>
          countNodes (runSeedOn 1 (runSeedOn 0 emptyGraph)) li.1 li.2 == 1) := by
      funext li
      rw [countNodes_mapGraph]
    rw [hfun]
    exact seedRun_nodeCounts
  · rw [runSeedOn_retime2 t1 t2, runSeedOn_retime t1 t2, stripUpdated_mapGraph,
      stripUpdated_mapGraph, seedRun_strip]

/-- C4: after 60 sequential messages, the full ticker holds exactly the 50
most recent entries newest first, the compact ticker 12, and the
notification badge 5. -/
theorem stream_components_bounded (streamMsgs eventMsgs : List (Option Json × String))
    (raws : List String) (h1 : streamMsgs.length = 60)
    (h2 : eventMsgs.length = 60) (h3 : raws.length = 60) :
    streamTickerRun streamMsgs =
      ((streamMsgs.map fun m => streamTickerEntry m.1 m.2).reverse).take 50 ∧
    (streamTickerRun streamMsgs).length = 50 ∧
    eventTickerRun eventMsgs =
      ((eventMsgs.map fun m => eventTickerEntry m.1 m.2).reverse).take 12 ∧
    (eventTickerRun eventMsgs).length = 12 ∧
    notificationRun raws = raws.reverse.take 5 ∧
    (notificationRun raws).length = 5 := by
  have hs : streamTickerRun streamMsgs =
      ((streamMsgs.map fun m => streamTickerEntry m.1 m.2).reverse).take 50 := by
    have h := foldl_push_take 50 (fun m : Option Json × String =>
      streamTickerEntry m.1 m.2) streamMsgs [] (by simp)
    rw [List.append_nil] at h
    exact h
  have he : eventTickerRun eventMsgs =
      ((eventMsgs.map fun m => eventTickerEntry m.1 m.2).reverse).take 12 := by
    have h := foldl_push_take 12 (fun m : Option Json × String =>
      eventTickerEntry m.1 m.2) eventMsgs [] (by simp)
    rw [List.append_nil] at h
    exact h
  have hn : notificationRun raws = raws.reverse.take 5 := by
    have h := foldl_push_take 5 (fun s : String => s) raws [] (by simp)
    rw [List.append_nil, List.map_id'] at h
    exact h
  refine ⟨hs, ?_, he, ?_, hn, ?_⟩
  · rw [hs, List.length_take, List.length_reverse, List.length_map, h1]
    decide
  · rw [he, List.length_take, List.length_reverse, List.length_map, h2]
    decide
  · rw [hn, List.length_take, List.length_reverse, h3]
    decide

/-- C4 witness: sixty concrete messages leave 50 / 12 / 5 entries. -/
theorem stream_components_bounded_witness :
    (streamTickerRun sixtyMsgs).length = 50 ∧
    (eventTickerRun sixtyMsgs).length = 12 ∧
    (notificationRun sixtyRaws).length = 5 := by
  have h := stream_components_bounded sixtyMsgs sixtyMsgs sixtyRaws rfl rfl rfl
  exact ⟨h.2.1, h.2.2.2.1, h.2.2.2.2.2⟩

/-- C5 counterexample: with both a runtime override and an environment value
present, `web/src/api/index.ts` resolves to the environment value while the
spec's three-tier priority chain resolves to the runtime override — so not
every module implements the chain. -/
theorem apiBase_not_uniform :
    apiIndexBase (some "http://override-host:9") (some "http://env-host:8") ≠
      specApiBase (some "http://override-host:9") (some "http://env-host:8") := by
  decide

/-- C5 amended: the proposal-list and audit-log components resolve the API
base by the three-tier chain (runtime override, then environment value, then
the local default); `web/src/api/index.ts` resolves only the environment
value (with one trailing slash stripped) before the default, ignoring the
runtime override; `web/src/lib/api.ts` is the fixed local default. -/
theorem apiBase_resolution_per_module (runtime envVar : Option String) :
    proposedActionsApiBase runtime envVar = specApiBase runtime envVar ∧
    auditApiBase runtime envVar = specApiBase runtime envVar ∧
    apiIndexBase runtime envVar = specApiBase none (envVar.map stripTrailingSlash) ∧
    libApiBase = "http://localhost:8000" := by
  refine ⟨rfl, rfl, ?_, rfl⟩
  cases envVar with
  | none => rfl
  | some s =>
    by_cases h : stripTrailingSlash s = "" <;>
      simp [apiIndexBase, specApiBase, jsTruthy, jsOr, h]

/-- C6 counterexample: a non-2xx response whose body parses as JSON is
rendered as a normal reply — the dock never checks the response status, so
the client-error triple is not produced. -/
theorem agent_dock_non2xx_counterexample :
    askResp (.response 500 "Internal Server Error" (.ok backendErrorBody)) =
      backendErrorBody ∧
    jsonField backendErrorBody "confidence" = some (.num 1) ∧
    ¬ ∃ e, askResp (.response 500 "Internal Server Error" (.ok backendErrorBody)) =
      clientErrorResp e := by
  refine ⟨rfl, rfl, ?_⟩
  rintro ⟨e, he⟩
  rw [show askResp (.response 500 "Internal Server Error" (.ok backendErrorBody)) =
    backendErrorBody from rfl] at he
  simp [backendErrorBody, clientErrorResp] at he

/-- C6 amended: when the dock's fetch rejects, or the response body fails to
parse as JSON, the rendered state is the client-error triple — the error's
text as the reply, confidence 0, and the `"Client error"` summary — and a
response with a parseable body is rendered as-is regardless of status; the
handler is total, never throwing past the component. -/
theorem agent_dock_error_handling (e : String) (s : Nat) (stx : String) (j : Json) :
    askResp (.netError e) = clientErrorResp e ∧
    askResp (.response s stx (.error e)) = clientErrorResp e ∧
    askResp (.response s stx (.ok j)) = j ∧
    jsonField (clientErrorResp e) "reply" = some (.str e) ∧
    jsonField (clientErrorResp e) "confidence" = some (.num 0) ∧
    jsonField (clientErrorResp e) "reasoning_summary" =
      some (.str "Client error") := by
  exact ⟨rfl, rfl, rfl, rfl, rfl, rfl⟩

/-- C7: the proposal list and audit log extract identical rows from the
wrapped shape `{items: [...]}` and from a bare array of the same data. -/
theorem dual_shape_tolerance (xs : List Json) :
    proposedRows (.obj [("items", .arr xs)]) = .arr xs ∧
    proposedRows (.arr xs) = .arr xs ∧
    auditRows (.obj [("items", .arr xs)]) = .arr xs ∧
    auditRows (.arr xs) = .arr xs ∧
    proposedRows (.obj [("items", .arr xs)]) = proposedRows (.arr xs) ∧
    auditRows (.obj [("items", .arr xs)]) = auditRows (.arr xs) := by
  exact ⟨rfl, rfl, rfl, rfl, rfl, rfl⟩

set_option maxRecDepth 200000 in
/-- C8: the schema declares exactly one guarded uniqueness constraint on
`id` per each of the 19 node labels, and exactly one full-text index over
the 12 searchable labels on `id`, `name`, `title`; applying the script
twice equals applying it once. -/
theorem schema_constraints_and_index :
    schemaConstraints.length = 19 ∧
    dataModelLabels.length = 19 ∧
    (dataModelLabels.all fun l =>
      (schemaConstraints.filter fun c => c.label == l).length == 1) = true ∧
    (schemaConstraints.all fun c => c.property == "id" && c.ifNotExists) = true ∧
    schemaFulltextIndexes = [⟨"entity_text",
      ["Service", "Machine", "Line", "Plant", "Database", "Sensor",
       "API", "Server", "Topic", "Incident", "Alert", "Team"],
      ["id", "name", "title"], true⟩] ∧
    applySchema (applySchema ⟨[], []⟩) = applySchema ⟨[], []⟩ := by
  refine ⟨rfl, rfl, by decide, by decide, rfl, by decide⟩

/-- C9: after seeding at any timestamp, the node `"M-42"` has label Machine
and criticality `"high"`, and is reachable from `"Site-1"` along
`HAS_PLANT`, `HAS_LINE`, `HAS_MACHINE`. -/
theorem seed_upsert_m42 (t : Nat) :
    hasNodeWith (runSeedOn t emptyGraph) "Machine" "M-42" "criticality"
      (.str "high") = true ∧
    reachesVia (runSeedOn t emptyGraph) ("Site", "Site-1")
      ["HAS_PLANT", "HAS_LINE", "HAS_MACHINE"] ("Machine", "M-42") = true := by
  have h : runSeedOn t emptyGraph = mapGraph (fun _ => t) (runSeedOn 0 emptyGraph) := by
    have h0 := runSeedOn_mapGraph (fun _ => t) 0 emptyGraph
    rw [mapGraph_empty] at h0
    simpa using h0
  constructor
  · rw [h, hasNodeWith_mapGraph (fun _ => t) (runSeedOn 0 emptyGraph) "Machine"
      "M-42" "criticality" (.str "high") rfl]
    exact seedRun_m42_crit
  · rw [h, reachesVia_mapGraph]
    exact seedRun_m42_path

/-- C10: a failed load replaces the displayed rows with the empty list in
addition to setting the error text, in both the proposal list and the audit
log, while a failed approval request leaves the rows untouched. -/
theorem failed_load_clears_rows (st : ProposedActionsState) (st2 : AuditState)
    (e e2 e3 aid : String) (reload : Except String Json) :
    (proposedLoad st (.error e)).rows = .arr [] ∧
    (proposedLoad st (.error e)).err = jsOr e "Failed to load proposed actions" ∧
    (auditLoad st2 (.error e2)).rows = .arr [] ∧
    (auditLoad st2 (.error e2)).err = jsOr e2 "Failed to load agent actions" ∧
    (proposedApprove st aid (.error e3) reload).rows = st.rows := by
  exact ⟨rfl, rfl, rfl, rfl, rfl⟩

end AgenticOpsHub
